import Mathlib

/-!
Verification development for the cosmic-mcp protocol adapter.

The TypeScript sources are shallowly embedded as executable Lean
definitions:

* JavaScript values that cross the adapter/backend boundary are modelled
  by the inductive `JsValue`; a JS object literal is a `JsRecord`, a list
  of key/value pairs in insertion order, so that the presence of a key
  with value `undefined` is distinguishable from the absence of the key.
* Thrown JS exceptions are modelled with `Except String`; the message of
  the `Error` object is the `String`.  `try`/`catch` blocks become `match`
  on the `Except` value.
* The environment (`process.env`) is the structure `Env`; an environment
  variable is `Option String` and JS string truthiness (`undefined` and
  the empty string are falsy) is `truthyStr`.
* The Cosmic SDK (`@cosmicjs/sdk`) and the zod library are external
  dependencies, not part of the repository: the SDK is modelled as an
  oracle `Backend : BackendCall -> Except String String` returning the
  serialized success payload or a thrown error message, and each zod
  schema's `parse` is an oracle field of the `Parsers` structure.
  A handler returns, next to its `ToolResult`, the list of backend calls
  it performed, so "zero backend calls" and "what was forwarded" are
  directly observable.
* Success envelopes serialize backend data with `JSON.stringify`; since
  the backend response is opaque (an oracle string standing for the
  serialized fragment), the success text is that string.  Every error
  text, in contrast, is reproduced verbatim from the source.
-/

namespace CosmicMcp

/-- JS runtime values crossing the adapter/backend boundary.  `undef` is
JavaScript `undefined`; an object literal field written `k: e` where `e`
evaluates to `undefined` yields a record entry `(k, undef)` - the key is
present, unlike a key that is never written. -/
inductive JsValue where
  | undef : JsValue
  | null : JsValue
  | bool : Bool → JsValue
  | num : Int → JsValue
  | str : String → JsValue
  | arr : List JsValue → JsValue
  | obj : List (String × JsValue) → JsValue
  | buffer : List Nat → JsValue
deriving Repr

/-- A JS object literal: keys in insertion order. -/
abbrev JsRecord := List (String × JsValue)

/-- JS string truthiness of an optional environment/parameter string:
`undefined` and `""` are falsy, every other string is truthy. -/
def truthyStr : Option String → Bool
  | none => false
  | some s => !(s == "")

/-- `JsValue.str` of an optional string, `undefined` when absent
(models writing `field: params.x` for an optional string `x`). -/
def jsOptStr : Option String → JsValue
  | none => JsValue.undef
  | some s => JsValue.str s

/-- `JsValue.obj` of an optional record, `undefined` when absent. -/
def jsOptObj : Option JsRecord → JsValue
  | none => JsValue.undef
  | some r => JsValue.obj r

/-- `JsValue.num` of an optional integer, `undefined` when absent. -/
def jsOptNum : Option Int → JsValue
  | none => JsValue.undef
  | some n => JsValue.num n

/-- JS property assignment `o[k] = v`: overwrites in place if the key
exists, otherwise appends. -/
def setField (r : JsRecord) (k : String) (v : JsValue) : JsRecord :=
  if r.any (fun kv => kv.1 == k) then
    r.map (fun kv => if kv.1 == k then (k, v) else kv)
  else
    r ++ [(k, v)]

/-! ## src/types.ts : ToolResult and enumerations -/

/-- One `{ type: 'text', text }` content block. -/
structure TextBlock where
  text : String
deriving Repr, DecidableEq

/-- `ToolResult` from src/types.ts: content blocks plus the optional
`isError` flag (absent on success; the JS field is `isError?: boolean`). -/
structure ToolResult where
  content : List TextBlock
  isError : Option Bool
deriving Repr, DecidableEq

/-- Error envelope with a single text block (the shape every handler's
catch block and early validation return produces). -/
def errEnv (t : String) : ToolResult :=
  ⟨[⟨t⟩], some true⟩

/-- Success envelope with a single serialized text block. -/
def okEnv (t : String) : ToolResult :=
  ⟨[⟨t⟩], none⟩

/-- Publication status filter values `published | draft | any`. -/
inductive Status where
  | published | draft | any
deriving Repr, DecidableEq

/-- Publication status values `published | draft`. -/
inductive PubStatus where
  | published | draft
deriving Repr, DecidableEq

/-- The JS string value of a `published | draft` status parameter. -/
def PubStatus.toJsStr : PubStatus → String
  | .published => "published"
  | .draft => "draft"

/-- Video duration enumeration `'4' | '6' | '8'` (strings in the schema). -/
inductive Duration where
  | d4 | d6 | d8
deriving Repr, DecidableEq

/-- `parseInt(params.duration, 10)` on the duration enumeration. -/
def Duration.toInt : Duration → Int
  | .d4 => 4
  | .d6 => 6
  | .d8 => 8

/-- Video resolution enumeration `'720p' | '1080p'`. -/
inductive Resolution where
  | r720p | r1080p
deriving Repr, DecidableEq

/-- The JS string value of a resolution parameter. -/
def Resolution.toJsStr : Resolution → String
  | .r720p => "720p"
  | .r1080p => "1080p"

/-! ## src/client.ts : configuration and the write guard -/

/-- The three environment variables read by `getConfig`. -/
structure Env where
  bucketSlug : Option String
  readKey : Option String
  writeKey : Option String

/-- `CosmicConfig` from src/types.ts. -/
structure CosmicConfig where
  bucketSlug : String
  readKey : String
  writeKey : Option String

/-- `getConfig` from src/client.ts: throws when `COSMIC_BUCKET_SLUG` or
`COSMIC_READ_KEY` is falsy. -/
def getConfig (env : Env) : Except String CosmicConfig :=
  if !truthyStr env.bucketSlug then
    Except.error ("COSMIC_BUCKET_SLUG environment variable is required")
  else if !truthyStr env.readKey then
    Except.error ("COSMIC_READ_KEY environment variable is required")
  else
    Except.ok ⟨env.bucketSlug.getD "", env.readKey.getD "", env.writeKey⟩

/-- `getCosmicClient` from src/client.ts.  The constructed SDK client
carries no adapter-visible state (backend calls go through the `Backend`
oracle), so only its success/failure matters here; the memoization of the
singleton does not change which calls succeed. -/
def getCosmicClient (env : Env) : Except String Unit :=
  (getConfig env).map (fun _ => ())

/-- `hasWriteAccess` from src/client.ts: `!!process.env.COSMIC_WRITE_KEY`. -/
def hasWriteAccess (env : Env) : Bool :=
  truthyStr env.writeKey

/-- `requireWriteAccess` from src/client.ts: throws when no write key is
configured. -/
def requireWriteAccess (env : Env) : Except String Unit :=
  if !hasWriteAccess env then
    Except.error
      ("Write operations require COSMIC_WRITE_KEY environment variable to be set")
  else
    Except.ok ()

/-! ## Backend boundary -/

/-- Chainable request built by `cosmic.objects.find(query)` plus the
conditionally applied refiners. -/
structure ObjectsFindReq where
  query : JsRecord
  props : Option (List String)
  limit : Option Int
  skip : Option Int
  sort : Option String
  status : Option Status
  depth : Option Int
deriving Repr

/-- Request built by `cosmic.objects.findOne(query)` plus refiners. -/
structure ObjectsFindOneReq where
  query : JsRecord
  props : Option (List String)
  status : Option Status
deriving Repr

/-- Request built by `cosmic.media.find(query)` plus refiners. -/
structure MediaFindReq where
  query : JsRecord
  props : Option (List String)
  limit : Option Int
  skip : Option Int
deriving Repr

/-- Request built by `cosmic.media.findOne({ id })` plus refiners. -/
structure MediaFindOneReq where
  query : JsRecord
  props : Option (List String)
deriving Repr

/-- One call into the Cosmic SDK client, with the exact request data the
handler passed. -/
inductive BackendCall where
  | objectsFind : ObjectsFindReq → BackendCall
  | objectsFindOne : ObjectsFindOneReq → BackendCall
  | objectsInsertOne : JsRecord → BackendCall
  | objectsUpdateOne : String → JsRecord → BackendCall
  | objectsDeleteOne : String → Bool → BackendCall
  | mediaFind : MediaFindReq → BackendCall
  | mediaFindOne : MediaFindOneReq → BackendCall
  | mediaInsertOne : JsRecord → BackendCall
  | mediaDeleteOne : String → Bool → BackendCall
  | objectTypesFind : BackendCall
  | objectTypesFindOne : String → BackendCall
  | objectTypesInsertOne : JsRecord → BackendCall
  | objectTypesUpdateOne : String → JsRecord → BackendCall
  | objectTypesDeleteOne : String → BackendCall
  | aiGenerateText : JsRecord → BackendCall
  | aiGenerateImage : JsRecord → BackendCall
  | aiGenerateVideo : JsRecord → BackendCall
deriving Repr

/-- The external SDK/network boundary: a call either throws (error
message) or succeeds, yielding the serialized response fragment the
handler puts into its success envelope. -/
abbrev Backend := BackendCall → Except String String

/-! ## Validated parameter shapes (zod schema outputs)

One structure per tool schema, mirroring `z.infer` of the schema in the
source: required fields are plain, optional fields are `Option`, and
fields with a zod `.default(...)` are plain because the parsed output
always carries them.  Metafields are forwarded opaquely by the handlers
(`Record<string, unknown>` in the source), so they are plain `JsValue`s
here. -/

/-- `z.infer<typeof listObjectsSchema>` (src/tools/objects.ts). -/
structure ListObjectsParams where
  type : Option String
  status : Status
  limit : Int
  skip : Int
  props : Option (List String)
  sort : Option String
  depth : Option Int
  query : Option JsRecord

/-- `z.infer<typeof getObjectSchema>` (src/tools/objects.ts). -/
structure GetObjectParams where
  id : Option String
  slug : Option String
  type : Option String
  props : Option (List String)
  status : Status

/-- `z.infer<typeof createObjectSchema>` (src/tools/objects.ts). -/
structure CreateObjectParams where
  title : String
  type : String
  slug : Option String
  content : Option String
  status : PubStatus
  metadata : Option JsRecord
  locale : Option String

/-- `z.infer<typeof updateObjectSchema>` (src/tools/objects.ts). -/
structure UpdateObjectParams where
  id : String
  title : Option String
  slug : Option String
  content : Option String
  status : Option PubStatus
  metadata : Option JsRecord

/-- `z.infer<typeof deleteObjectSchema>` (src/tools/objects.ts). -/
structure DeleteObjectParams where
  id : String
  trigger_webhook : Bool

/-- `z.infer<typeof listMediaSchema>` (src/tools/media.ts). -/
structure ListMediaParams where
  folder : Option String
  limit : Int
  skip : Int
  props : Option (List String)

/-- `z.infer<typeof getMediaSchema>` (src/tools/media.ts). -/
structure GetMediaParams where
  id : String
  props : Option (List String)

/-- `z.infer<typeof uploadMediaSchema>` (src/tools/media.ts). -/
structure UploadMediaParams where
  media : String
  folder : Option String
  metadata : Option JsRecord
  trigger_webhook : Bool

/-- `z.infer<typeof deleteMediaSchema>` (src/tools/media.ts). -/
structure DeleteMediaParams where
  id : String
  trigger_webhook : Bool

/-- `{ slug_field?, content_editor? }` object type options. -/
structure TypeOptions where
  slug_field : Option Bool
  content_editor : Option Bool

/-- The options value as forwarded to the backend. -/
def TypeOptions.toJs (o : TypeOptions) : JsValue :=
  JsValue.obj [("slug_field", match o.slug_field with
                  | none => JsValue.undef
                  | some b => JsValue.bool b),
               ("content_editor", match o.content_editor with
                  | none => JsValue.undef
                  | some b => JsValue.bool b)]

/-- `z.infer<typeof getObjectTypeSchema>` (src/tools/object-types.ts). -/
structure GetObjectTypeParams where
  slug : String

/-- `z.infer<typeof createObjectTypeSchema>` (src/tools/object-types.ts). -/
structure CreateObjectTypeParams where
  title : String
  slug : String
  singular : Option String
  metafields : Option (List JsValue)
  options : Option TypeOptions

/-- `z.infer<typeof updateObjectTypeSchema>` (src/tools/object-types.ts). -/
structure UpdateObjectTypeParams where
  slug : String
  title : Option String
  singular : Option String
  metafields : Option (List JsValue)
  options : Option TypeOptions

/-- `z.infer<typeof deleteObjectTypeSchema>` (src/tools/object-types.ts). -/
structure DeleteObjectTypeParams where
  slug : String

/-- `z.infer<typeof generateTextSchema>` (src/tools/ai.ts). -/
structure GenerateTextParams where
  prompt : String
  model : Option String
  max_tokens : Option Int

/-- `z.infer<typeof generateImageSchema>` (src/tools/ai.ts). -/
structure GenerateImageParams where
  prompt : String
  model : Option String
  folder : Option String
  metadata : Option JsRecord
  alt_text : Option String

/-- `z.infer<typeof generateVideoSchema>` (src/tools/ai.ts). -/
structure GenerateVideoParams where
  prompt : String
  model : Option String
  duration : Option Duration
  resolution : Option Resolution
  folder : Option String
  metadata : Option JsRecord

/-! ## Data URI matching and base64 decoding (src/tools/media.ts)

`handleUploadMedia` matches `params.media` against the JS regular
expression `/^data:([^;]+);base64,(.+)$/`.  Because `[^;]+` cannot cross
a `;`, the first capture is exactly the (non-empty) text before the
first `;`, which must be immediately followed by the literal `base64,`;
`.` does not match a line terminator and `$` anchors at the end of the
string, so the second capture is the (non-empty, terminator-free)
remainder.  `dataUriMatch` implements exactly that. -/

/-- JS regex line terminators (`.` matches anything but these). -/
def isLineTerm (c : Char) : Bool :=
  c == Char.ofNat 10 || c == Char.ofNat 13 ||
    c == Char.ofNat 8232 || c == Char.ofNat 8233

/-- `String.prototype.startsWith` on the character lists of the strings
(computable by kernel reduction, unlike `String.startsWith`). -/
def jsStartsWith (s pre : String) : Bool :=
  List.isPrefixOf pre.toList s.toList

/-- Split a character list at the first `;` (the `;` stays in the second
component); models the maximal match of `[^;]+` before `;`. -/
def takeUntilSemi : List Char → List Char × List Char
  | [] => ([], [])
  | c :: cs =>
    if c == ';' then ([], c :: cs)
    else
      let p := takeUntilSemi cs
      (c :: p.1, p.2)

/-- `media.match(/^data:([^;]+);base64,(.+)$/)`: the mime capture and the
base64-payload capture, or `none` when the regex does not match. -/
def dataUriMatch (s : String) : Option (String × String) :=
  if jsStartsWith s ("data:") then
    let rest := s.toList.drop 5
    let p := takeUntilSemi rest
    if p.1.isEmpty then none
    else if List.isPrefixOf (String.toList (";base64,")) p.2 then
      let payload := p.2.drop 8
      if payload.isEmpty then none
      else if payload.any isLineTerm then none
      else some (String.mk p.1, String.mk payload)
    else none
  else none

/-- Value of one base64 character under Node's lenient decoder (both the
standard and the URL-safe alphabet); `none` for characters Node ignores. -/
def b64Val (c : Char) : Option Nat :=
  if 'A' ≤ c && c ≤ 'Z' then some (c.toNat - 65)
  else if 'a' ≤ c && c ≤ 'z' then some (c.toNat - 71)
  else if '0' ≤ c && c ≤ '9' then some (c.toNat + 4)
  else if c == '+' || c == '-' then some 62
  else if c == '/' || c == '_' then some 63
  else none

/-- Pack 6-bit groups into bytes (4 sextets to 3 bytes, with the usual
truncated tail handling). -/
def packSextets : List Nat → List Nat
  | a :: b :: c :: d :: rest =>
    (a * 4 + b / 16) :: ((b % 16) * 16 + c / 4) :: ((c % 4) * 64 + d) ::
      packSextets rest
  | [a, b] => [a * 4 + b / 16]
  | [a, b, c] => [a * 4 + b / 16, (b % 16) * 16 + c / 4]
  | _ => []

/-- `Buffer.from(str, 'base64')`: decode the base64 alphabet characters,
skipping everything else, and pack the sextets into bytes. -/
def decodeBase64 (s : String) : List Nat :=
  packSextets (s.toList.filterMap b64Val)

/-! ## Tool handlers

Each handler is the direct transcription of the corresponding `async`
function: its body runs inside a `try` whose `catch` produces
`errEnv ("Error <doing X>: " ++ message)`.  The second component of the
result is the list of backend calls performed. -/

/-- A truthiness-gated chainable refiner taking a string
(`if (params.x) request = request.x(params.x)`). -/
def appliedStr (o : Option String) : Option String :=
  match o with
  | none => none
  | some s => if s == "" then none else some s

/-- A truthiness-gated chainable refiner taking a number (`0` is falsy). -/
def appliedNum (n : Int) : Option Int :=
  if n == 0 then none else some n

/-- `handleListObjects` (src/tools/objects.ts). -/
def handleListObjects (env : Env) (bk : Backend) (p : ListObjectsParams) :
    ToolResult × List BackendCall :=
  match getCosmicClient env with
  | .error m => (errEnv (("Error listing objects: ") ++ m), [])
  | .ok _ =>
    let query0 := p.query.getD []
    let query := if truthyStr p.type then
        setField query0 ("type") (JsValue.str (p.type.getD ""))
      else query0
    let c := BackendCall.objectsFind
      ⟨query, p.props, appliedNum p.limit, appliedNum p.skip,
       appliedStr p.sort, some p.status, p.depth⟩
    match bk c with
    | .error m => (errEnv (("Error listing objects: ") ++ m), [c])
    | .ok resp => (okEnv resp, [c])

/-- `handleGetObject` (src/tools/objects.ts). -/
def handleGetObject (env : Env) (bk : Backend) (p : GetObjectParams) :
    ToolResult × List BackendCall :=
  if !truthyStr p.id && !truthyStr p.slug then
    (errEnv ("Error: Either id or slug must be provided"), [])
  else if truthyStr p.slug && !truthyStr p.type then
    (errEnv ("Error: type is required when using slug to get an object"), [])
  else
    match getCosmicClient env with
    | .error m => (errEnv (("Error getting object: ") ++ m), [])
    | .ok _ =>
      let query : JsRecord :=
        if truthyStr p.id then [("id", JsValue.str (p.id.getD ""))]
        else [("type", JsValue.str (p.type.getD "")),
              ("slug", JsValue.str (p.slug.getD ""))]
      let c := BackendCall.objectsFindOne ⟨query, p.props, some p.status⟩
      match bk c with
      | .error m => (errEnv (("Error getting object: ") ++ m), [c])
      | .ok resp => (okEnv resp, [c])

/-- The object literal `handleCreateObject` passes to
`cosmic.objects.insertOne`: every key is written unconditionally. -/
def createObjectRecord (p : CreateObjectParams) : JsRecord :=
  [("title", JsValue.str p.title),
   ("type", JsValue.str p.type),
   ("slug", jsOptStr p.slug),
   ("content", jsOptStr p.content),
   ("status", JsValue.str p.status.toJsStr),
   ("metadata", jsOptObj p.metadata),
   ("locale", jsOptStr p.locale)]

/-- `handleCreateObject` (src/tools/objects.ts). -/
def handleCreateObject (env : Env) (bk : Backend) (p : CreateObjectParams) :
    ToolResult × List BackendCall :=
  match requireWriteAccess env with
  | .error m => (errEnv (("Error creating object: ") ++ m), [])
  | .ok _ =>
    match getCosmicClient env with
    | .error m => (errEnv (("Error creating object: ") ++ m), [])
    | .ok _ =>
      let c := BackendCall.objectsInsertOne (createObjectRecord p)
      match bk c with
      | .error m => (errEnv (("Error creating object: ") ++ m), [c])
      | .ok resp => (okEnv resp, [c])

/-- The sparse `updates` record `handleUpdateObject` builds: one
`if (params.x !== undefined) updates.x = params.x` per optional field. -/
def objectUpdatesRecord (p : UpdateObjectParams) : JsRecord :=
  let u : JsRecord := []
  let u := match p.title with
    | none => u
    | some t => u ++ [("title", JsValue.str t)]
  let u := match p.slug with
    | none => u
    | some s => u ++ [("slug", JsValue.str s)]
  let u := match p.content with
    | none => u
    | some s => u ++ [("content", JsValue.str s)]
  let u := match p.status with
    | none => u
    | some st => u ++ [("status", JsValue.str st.toJsStr)]
  match p.metadata with
  | none => u
  | some md => u ++ [("metadata", JsValue.obj md)]

/-- `handleUpdateObject` (src/tools/objects.ts). -/
def handleUpdateObject (env : Env) (bk : Backend) (p : UpdateObjectParams) :
    ToolResult × List BackendCall :=
  match requireWriteAccess env with
  | .error m => (errEnv (("Error updating object: ") ++ m), [])
  | .ok _ =>
    match getCosmicClient env with
    | .error m => (errEnv (("Error updating object: ") ++ m), [])
    | .ok _ =>
      let c := BackendCall.objectsUpdateOne p.id (objectUpdatesRecord p)
      match bk c with
      | .error m => (errEnv (("Error updating object: ") ++ m), [c])
      | .ok resp => (okEnv resp, [c])

/-- `handleDeleteObject` (src/tools/objects.ts). -/
def handleDeleteObject (env : Env) (bk : Backend) (p : DeleteObjectParams) :
    ToolResult × List BackendCall :=
  match requireWriteAccess env with
  | .error m => (errEnv (("Error deleting object: ") ++ m), [])
  | .ok _ =>
    match getCosmicClient env with
    | .error m => (errEnv (("Error deleting object: ") ++ m), [])
    | .ok _ =>
      let c := BackendCall.objectsDeleteOne p.id p.trigger_webhook
      match bk c with
      | .error m => (errEnv (("Error deleting object: ") ++ m), [c])
      | .ok _ => (okEnv ("deleted"), [c])

/-- `handleListMedia` (src/tools/media.ts). -/
def handleListMedia (env : Env) (bk : Backend) (p : ListMediaParams) :
    ToolResult × List BackendCall :=
  match getCosmicClient env with
  | .error m => (errEnv (("Error listing media: ") ++ m), [])
  | .ok _ =>
    let query : JsRecord :=
      if truthyStr p.folder then [("folder", JsValue.str (p.folder.getD ""))]
      else []
    let c := BackendCall.mediaFind
      ⟨query, p.props, appliedNum p.limit, appliedNum p.skip⟩
    match bk c with
    | .error m => (errEnv (("Error listing media: ") ++ m), [c])
    | .ok resp => (okEnv resp, [c])

/-- `handleGetMedia` (src/tools/media.ts). -/
def handleGetMedia (env : Env) (bk : Backend) (p : GetMediaParams) :
    ToolResult × List BackendCall :=
  match getCosmicClient env with
  | .error m => (errEnv (("Error getting media: ") ++ m), [])
  | .ok _ =>
    let c := BackendCall.mediaFindOne ⟨[("id", JsValue.str p.id)], p.props⟩
    match bk c with
    | .error m => (errEnv (("Error getting media: ") ++ m), [c])
    | .ok resp => (okEnv resp, [c])

/-- The object literal `handleUploadMedia` passes to
`cosmic.media.insertOne`, given the already-computed `mediaInput`. -/
def uploadMediaRecord (mediaInput : JsValue) (p : UploadMediaParams) : JsRecord :=
  [("media", mediaInput),
   ("folder", jsOptStr p.folder),
   ("metadata", jsOptObj p.metadata),
   ("trigger_webhook", JsValue.bool p.trigger_webhook)]

/-- `handleUploadMedia` (src/tools/media.ts). -/
def handleUploadMedia (env : Env) (bk : Backend) (p : UploadMediaParams) :
    ToolResult × List BackendCall :=
  match requireWriteAccess env with
  | .error m => (errEnv (("Error uploading media: ") ++ m), [])
  | .ok _ =>
    match getCosmicClient env with
    | .error m => (errEnv (("Error uploading media: ") ++ m), [])
    | .ok _ =>
      if jsStartsWith p.media ("data:") then
        match dataUriMatch p.media with
        | none =>
          (errEnv ("Error: Invalid base64 data URI format. Expected format: data:<mimetype>;base64,<data>"),
           [])
        | some mt =>
          let c := BackendCall.mediaInsertOne
            (uploadMediaRecord (JsValue.buffer (decodeBase64 mt.2)) p)
          match bk c with
          | .error m => (errEnv (("Error uploading media: ") ++ m), [c])
          | .ok resp => (okEnv resp, [c])
      else
        let c := BackendCall.mediaInsertOne
          (uploadMediaRecord (JsValue.str p.media) p)
        match bk c with
        | .error m => (errEnv (("Error uploading media: ") ++ m), [c])
        | .ok resp => (okEnv resp, [c])

/-- `handleDeleteMedia` (src/tools/media.ts). -/
def handleDeleteMedia (env : Env) (bk : Backend) (p : DeleteMediaParams) :
    ToolResult × List BackendCall :=
  match requireWriteAccess env with
  | .error m => (errEnv (("Error deleting media: ") ++ m), [])
  | .ok _ =>
    match getCosmicClient env with
    | .error m => (errEnv (("Error deleting media: ") ++ m), [])
    | .ok _ =>
      let c := BackendCall.mediaDeleteOne p.id p.trigger_webhook
      match bk c with
      | .error m => (errEnv (("Error deleting media: ") ++ m), [c])
      | .ok _ => (okEnv ("deleted"), [c])

/-- `handleListObjectTypes` (src/tools/object-types.ts); takes no
parameters. -/
def handleListObjectTypes (env : Env) (bk : Backend) :
    ToolResult × List BackendCall :=
  match getCosmicClient env with
  | .error m => (errEnv (("Error listing object types: ") ++ m), [])
  | .ok _ =>
    let c := BackendCall.objectTypesFind
    match bk c with
    | .error m => (errEnv (("Error listing object types: ") ++ m), [c])
    | .ok resp => (okEnv resp, [c])

/-- `handleGetObjectType` (src/tools/object-types.ts). -/
def handleGetObjectType (env : Env) (bk : Backend) (p : GetObjectTypeParams) :
    ToolResult × List BackendCall :=
  match getCosmicClient env with
  | .error m => (errEnv (("Error getting object type: ") ++ m), [])
  | .ok _ =>
    let c := BackendCall.objectTypesFindOne p.slug
    match bk c with
    | .error m => (errEnv (("Error getting object type: ") ++ m), [c])
    | .ok resp => (okEnv resp, [c])

/-- The object literal `handleCreateObjectType` passes to
`cosmic.objectTypes.insertOne`: every key written unconditionally. -/
def createObjectTypeRecord (p : CreateObjectTypeParams) : JsRecord :=
  [("title", JsValue.str p.title),
   ("slug", JsValue.str p.slug),
   ("singular", jsOptStr p.singular),
   ("metafields", match p.metafields with
      | none => JsValue.undef
      | some ms => JsValue.arr ms),
   ("options", match p.options with
      | none => JsValue.undef
      | some o => o.toJs)]

/-- `handleCreateObjectType` (src/tools/object-types.ts). -/
def handleCreateObjectType (env : Env) (bk : Backend)
    (p : CreateObjectTypeParams) : ToolResult × List BackendCall :=
  match requireWriteAccess env with
  | .error m => (errEnv (("Error creating object type: ") ++ m), [])
  | .ok _ =>
    match getCosmicClient env with
    | .error m => (errEnv (("Error creating object type: ") ++ m), [])
    | .ok _ =>
      let c := BackendCall.objectTypesInsertOne (createObjectTypeRecord p)
      match bk c with
      | .error m => (errEnv (("Error creating object type: ") ++ m), [c])
      | .ok resp => (okEnv resp, [c])

/-- The sparse `updates` record `handleUpdateObjectType` builds. -/
def objectTypeUpdatesRecord (p : UpdateObjectTypeParams) : JsRecord :=
  let u : JsRecord := []
  let u := match p.title with
    | none => u
    | some t => u ++ [("title", JsValue.str t)]
  let u := match p.singular with
    | none => u
    | some s => u ++ [("singular", JsValue.str s)]
  let u := match p.metafields with
    | none => u
    | some ms => u ++ [("metafields", JsValue.arr ms)]
  match p.options with
  | none => u
  | some o => u ++ [("options", o.toJs)]

/-- `handleUpdateObjectType` (src/tools/object-types.ts). -/
def handleUpdateObjectType (env : Env) (bk : Backend)
    (p : UpdateObjectTypeParams) : ToolResult × List BackendCall :=
  match requireWriteAccess env with
  | .error m => (errEnv (("Error updating object type: ") ++ m), [])
  | .ok _ =>
    match getCosmicClient env with
    | .error m => (errEnv (("Error updating object type: ") ++ m), [])
    | .ok _ =>
      let c := BackendCall.objectTypesUpdateOne p.slug (objectTypeUpdatesRecord p)
      match bk c with
      | .error m => (errEnv (("Error updating object type: ") ++ m), [c])
      | .ok resp => (okEnv resp, [c])

/-- `handleDeleteObjectType` (src/tools/object-types.ts). -/
def handleDeleteObjectType (env : Env) (bk : Backend)
    (p : DeleteObjectTypeParams) : ToolResult × List BackendCall :=
  match requireWriteAccess env with
  | .error m => (errEnv (("Error deleting object type: ") ++ m), [])
  | .ok _ =>
    match getCosmicClient env with
    | .error m => (errEnv (("Error deleting object type: ") ++ m), [])
    | .ok _ =>
      let c := BackendCall.objectTypesDeleteOne p.slug
      match bk c with
      | .error m => (errEnv (("Error deleting object type: ") ++ m), [c])
      | .ok _ => (okEnv ("deleted"), [c])

/-- The object literal `handleGenerateText` passes to
`cosmic.ai.generateText`. -/
def generateTextRecord (p : GenerateTextParams) : JsRecord :=
  [("prompt", JsValue.str p.prompt),
   ("model", jsOptStr p.model),
   ("max_tokens", jsOptNum p.max_tokens)]

/-- `handleGenerateText` (src/tools/ai.ts); read-class: no write guard. -/
def handleGenerateText (env : Env) (bk : Backend) (p : GenerateTextParams) :
    ToolResult × List BackendCall :=
  match getCosmicClient env with
  | .error m => (errEnv (("Error generating text: ") ++ m), [])
  | .ok _ =>
    let c := BackendCall.aiGenerateText (generateTextRecord p)
    match bk c with
    | .error m => (errEnv (("Error generating text: ") ++ m), [c])
    | .ok resp => (okEnv resp, [c])

/-- The object literal `handleGenerateImage` passes to
`cosmic.ai.generateImage`. -/
def generateImageRecord (p : GenerateImageParams) : JsRecord :=
  [("prompt", JsValue.str p.prompt),
   ("model", jsOptStr p.model),
   ("folder", jsOptStr p.folder),
   ("metadata", jsOptObj p.metadata),
   ("alt_text", jsOptStr p.alt_text)]

/-- `handleGenerateImage` (src/tools/ai.ts). -/
def handleGenerateImage (env : Env) (bk : Backend) (p : GenerateImageParams) :
    ToolResult × List BackendCall :=
  match requireWriteAccess env with
  | .error m => (errEnv (("Error generating image: ") ++ m), [])
  | .ok _ =>
    match getCosmicClient env with
    | .error m => (errEnv (("Error generating image: ") ++ m), [])
    | .ok _ =>
      let c := BackendCall.aiGenerateImage (generateImageRecord p)
      match bk c with
      | .error m => (errEnv (("Error generating image: ") ++ m), [c])
      | .ok resp => (okEnv resp, [c])

/-- The object literal `handleGenerateVideo` passes to
`cosmic.ai.generateVideo`; the `'4'|'6'|'8'` duration is converted with
`parseInt` first (the ternary is truthiness-gated, but every enum value
is a non-empty string). -/
def generateVideoRecord (p : GenerateVideoParams) : JsRecord :=
  [("prompt", JsValue.str p.prompt),
   ("model", jsOptStr p.model),
   ("duration", jsOptNum (p.duration.map Duration.toInt)),
   ("resolution", match p.resolution with
      | none => JsValue.undef
      | some r => JsValue.str r.toJsStr),
   ("folder", jsOptStr p.folder),
   ("metadata", jsOptObj p.metadata)]

/-- `handleGenerateVideo` (src/tools/ai.ts). -/
def handleGenerateVideo (env : Env) (bk : Backend) (p : GenerateVideoParams) :
    ToolResult × List BackendCall :=
  match requireWriteAccess env with
  | .error m => (errEnv (("Error generating video: ") ++ m), [])
  | .ok _ =>
    match getCosmicClient env with
    | .error m => (errEnv (("Error generating video: ") ++ m), [])
    | .ok _ =>
      let c := BackendCall.aiGenerateVideo (generateVideoRecord p)
      match bk c with
      | .error m => (errEnv (("Error generating video: ") ++ m), [c])
      | .ok resp => (okEnv resp, [c])

/-! ## Tool catalogs (names of the descriptor lists)

The descriptor lists `objectTools`, `mediaTools`, `objectTypeTools` and
`aiTools` are static data; the registry-level claims concern their names,
counts and order, so each descriptor is embedded as its name (the
`description` and `inputSchema` fields are static strings/JSON shapes
with no behavior). -/

/-- Names of `objectTools` (src/tools/objects.ts), in source order. -/
def objectTools : List String :=
  ["cosmic_objects_list", "cosmic_objects_get", "cosmic_objects_create",
   "cosmic_objects_update", "cosmic_objects_delete"]

/-- Names of `mediaTools` (src/tools/media.ts), in source order. -/
def mediaTools : List String :=
  ["cosmic_media_list", "cosmic_media_get", "cosmic_media_upload",
   "cosmic_media_delete"]

/-- Names of `objectTypeTools` (src/tools/object-types.ts), in source order. -/
def objectTypeTools : List String :=
  ["cosmic_types_list", "cosmic_types_get", "cosmic_types_create",
   "cosmic_types_update", "cosmic_types_delete"]

/-- Names of `aiTools` (src/tools/ai.ts), in source order. -/
def aiTools : List String :=
  ["cosmic_ai_generate_text", "cosmic_ai_generate_image",
   "cosmic_ai_generate_video"]

/-- `allTools` (src/index.ts): concatenation of the four catalogs. -/
def allTools : List String :=
  objectTools ++ mediaTools ++ objectTypeTools ++ aiTools

/-! ## Request dispatcher (src/index.ts) -/

/-- The zod `parse` calls the dispatcher makes, one oracle per schema it
imports (zod is an external library; its semantics is not constrained
here, which makes the dispatcher theorems hold for every parser
behavior).  `listObjectTypesSchema` exists in src/tools/object-types.ts
but is never imported by src/index.ts, hence has no field. -/
structure Parsers where
  listObjects : JsValue → Except String ListObjectsParams
  getObject : JsValue → Except String GetObjectParams
  createObject : JsValue → Except String CreateObjectParams
  updateObject : JsValue → Except String UpdateObjectParams
  deleteObject : JsValue → Except String DeleteObjectParams
  listMedia : JsValue → Except String ListMediaParams
  getMedia : JsValue → Except String GetMediaParams
  uploadMedia : JsValue → Except String UploadMediaParams
  deleteMedia : JsValue → Except String DeleteMediaParams
  getObjectType : JsValue → Except String GetObjectTypeParams
  createObjectType : JsValue → Except String CreateObjectTypeParams
  updateObjectType : JsValue → Except String UpdateObjectTypeParams
  deleteObjectType : JsValue → Except String DeleteObjectTypeParams
  generateText : JsValue → Except String GenerateTextParams
  generateImage : JsValue → Except String GenerateImageParams
  generateVideo : JsValue → Except String GenerateVideoParams

/-- Observable step of servicing one tool call: a `schema.parse(args)`
invocation, a handler invocation, or a backend call made by the handler. -/
inductive Event where
  | parsed : String → Event
  | handled : String → Event
  | backendCall : BackendCall → Event

/-- `toCallToolResult` (src/index.ts): repackages `{content, isError}`. -/
def toCallToolResult (r : ToolResult) : ToolResult :=
  ⟨r.content, r.isError⟩

/-- One parse-gated `case` of the dispatcher switch:
`const params = schema.parse(args); return toCallToolResult(await handler(params))`.
The parse event is recorded before the outcome is inspected (the call
happens either way); a parse failure is the thrown zod error. -/
def runParsed {P : Type} (name : String)
    (parse : JsValue → Except String P)
    (handler : P → ToolResult × List BackendCall) (args : JsValue) :
    Except String ToolResult × List Event :=
  match parse args with
  | .error m => (.error m, [Event.parsed name])
  | .ok p =>
    let r := handler p
    (.ok (toCallToolResult r.1),
     Event.parsed name :: Event.handled name :: r.2.map Event.backendCall)

/-- The body of the dispatcher `try` block: the `switch (name)` of the
`CallToolRequestSchema` handler in src/index.ts, with the `default`
case returning (not throwing) the unknown-tool envelope. -/
def dispatchBody (env : Env) (bk : Backend) (ps : Parsers) (name : String)
    (args : JsValue) : Except String ToolResult × List Event :=
  if name = ("cosmic_objects_list") then
    runParsed name ps.listObjects (handleListObjects env bk) args
  else if name = ("cosmic_objects_get") then
    runParsed name ps.getObject (handleGetObject env bk) args
  else if name = ("cosmic_objects_create") then
    runParsed name ps.createObject (handleCreateObject env bk) args
  else if name = ("cosmic_objects_update") then
    runParsed name ps.updateObject (handleUpdateObject env bk) args
  else if name = ("cosmic_objects_delete") then
    runParsed name ps.deleteObject (handleDeleteObject env bk) args
  else if name = ("cosmic_media_list") then
    runParsed name ps.listMedia (handleListMedia env bk) args
  else if name = ("cosmic_media_get") then
    runParsed name ps.getMedia (handleGetMedia env bk) args
  else if name = ("cosmic_media_upload") then
    runParsed name ps.uploadMedia (handleUploadMedia env bk) args
  else if name = ("cosmic_media_delete") then
    runParsed name ps.deleteMedia (handleDeleteMedia env bk) args
  else if name = ("cosmic_types_list") then
    let r := handleListObjectTypes env bk
    (.ok (toCallToolResult r.1),
     Event.handled name :: r.2.map Event.backendCall)
  else if name = ("cosmic_types_get") then
    runParsed name ps.getObjectType (handleGetObjectType env bk) args
  else if name = ("cosmic_types_create") then
    runParsed name ps.createObjectType (handleCreateObjectType env bk) args
  else if name = ("cosmic_types_update") then
    runParsed name ps.updateObjectType (handleUpdateObjectType env bk) args
  else if name = ("cosmic_types_delete") then
    runParsed name ps.deleteObjectType (handleDeleteObjectType env bk) args
  else if name = ("cosmic_ai_generate_text") then
    runParsed name ps.generateText (handleGenerateText env bk) args
  else if name = ("cosmic_ai_generate_image") then
    runParsed name ps.generateImage (handleGenerateImage env bk) args
  else if name = ("cosmic_ai_generate_video") then
    runParsed name ps.generateVideo (handleGenerateVideo env bk) args
  else
    (.ok (errEnv (("Unknown tool: ") ++ name)), [])

/-- The dispatcher: the `try`/`catch` around `dispatchBody`.  The catch
is the last line of defense, converting any error thrown by parse or
handler into the uniform envelope. -/
def dispatch (env : Env) (bk : Backend) (ps : Parsers) (name : String)
    (args : JsValue) : ToolResult × List Event :=
  let r := dispatchBody env bk ps name args
  match r.1 with
  | .ok res => (res, r.2)
  | .error m =>
    (errEnv (("Error executing tool ") ++ name ++ (": ") ++ m), r.2)

/-! ## Fixtures and helper lemmas -/

/-- The message `requireWriteAccess` throws. -/
def writeKeyMsg : String :=
  "Write operations require COSMIC_WRITE_KEY environment variable to be set"

/-- A fully configured environment. -/
def envAll : Env := ⟨some ("bucket"), some ("read-key"), some ("write-key")⟩

/-- An environment with no write credential. -/
def envReadOnly : Env := ⟨some ("bucket"), some ("read-key"), none⟩

/-- A backend oracle on which every call succeeds. -/
def bkOk : Backend := fun _ => Except.ok ("resp")

/-- A parse oracle that always fails (zod rejecting the arguments). -/
def noParse {P : Type} : JsValue → Except String P :=
  fun _ => Except.error ("parse failure")

/-- A parser assignment under which every schema parse fails. -/
def failParsers : Parsers :=
  ⟨noParse, noParse, noParse, noParse, noParse, noParse, noParse, noParse,
   noParse, noParse, noParse, noParse, noParse, noParse, noParse, noParse⟩

/-- Spec-side description of one sparse-patch entry: the singleton entry
when the field was supplied, nothing when it was omitted. -/
def optEntry (k : String) : Option JsValue → JsRecord
  | none => []
  | some v => [(k, v)]

/-- The 16 tool names whose dispatcher case parses the arguments through
a schema (all registered names except `cosmic_types_list`). -/
def parseGatedTools : List String :=
  ["cosmic_objects_list", "cosmic_objects_get", "cosmic_objects_create",
   "cosmic_objects_update", "cosmic_objects_delete", "cosmic_media_list",
   "cosmic_media_get", "cosmic_media_upload", "cosmic_media_delete",
   "cosmic_types_get", "cosmic_types_create", "cosmic_types_update",
   "cosmic_types_delete", "cosmic_ai_generate_text",
   "cosmic_ai_generate_image", "cosmic_ai_generate_video"]

theorem truthyStr_none : truthyStr none = false := rfl

theorem runParsed_head {P : Type} (name : String)
    (parse : JsValue → Except String P)
    (handler : P → ToolResult × List BackendCall) (args : JsValue) :
    (runParsed name parse handler args).2.head? = some (Event.parsed name) := by
  cases h : parse args <;> simp [runParsed, h]

theorem runParsed_trace_ne {P : Type} (name : String)
    (parse : JsValue → Except String P)
    (handler : P → ToolResult × List BackendCall) (args : JsValue) :
    (runParsed name parse handler args).2 ≠ [] := by
  cases h : parse args <;> simp [runParsed, h]

theorem runParsed_error_trace {P : Type} (name : String)
    (parse : JsValue → Except String P)
    (handler : P → ToolResult × List BackendCall) (args : JsValue) (m : String)
    (h : (runParsed name parse handler args).1 = Except.error m) :
    (runParsed name parse handler args).2 = [Event.parsed name] := by
  cases hp : parse args <;> simp [runParsed, hp] at h ⊢

theorem dispatch_trace (env : Env) (bk : Backend) (ps : Parsers)
    (name : String) (args : JsValue) :
    (dispatch env bk ps name args).2 = (dispatchBody env bk ps name args).2 := by
  cases h : (dispatchBody env bk ps name args).1 <;> simp [dispatch, h]

theorem dispatch_of_error (env : Env) (bk : Backend) (ps : Parsers)
    (name : String) (args : JsValue) (m : String)
    (h : (dispatchBody env bk ps name args).1 = Except.error m) :
    dispatch env bk ps name args =
      (errEnv (("Error executing tool ") ++ name ++ (": ") ++ m),
       (dispatchBody env bk ps name args).2) := by
  simp [dispatch, h]

theorem dispatchBody_not_known (env : Env) (bk : Backend) (ps : Parsers)
    (name : String) (args : JsValue) (h : name ∉ allTools) :
    dispatchBody env bk ps name args =
      (Except.ok (errEnv (("Unknown tool: ") ++ name)), []) := by
  simp [allTools, objectTools, mediaTools, objectTypeTools, aiTools, not_or] at h
  obtain ⟨a1, a2, a3, a4, a5, b1, b2, b3, b4, t1, t2, t3, t4, t5, d1, d2, d3⟩ := h
  simp [dispatchBody, a1, a2, a3, a4, a5, b1, b2, b3, b4, t1, t2, t3, t4, t5,
        d1, d2, d3]

/-- The two conclusions every parse-gated dispatcher case satisfies, for
any case reduced to `runParsed`. -/
theorem gated_dispatch {P : Type} (env : Env) (bk : Backend) (ps : Parsers)
    (name : String) (args : JsValue) (parse : JsValue → Except String P)
    (handler : P → ToolResult × List BackendCall)
    (heq : dispatchBody env bk ps name args = runParsed name parse handler args) :
    ((dispatchBody env bk ps name args).2.head? = some (Event.parsed name)) ∧
    (∀ m, (dispatchBody env bk ps name args).1 = Except.error m →
      (dispatchBody env bk ps name args).2 = [Event.parsed name] ∧
      dispatch env bk ps name args =
        (errEnv (("Error executing tool ") ++ name ++ (": ") ++ m),
         [Event.parsed name])) := by
  constructor
  · rw [heq]; exact runParsed_head name parse handler args
  · intro m h
    have ht : (runParsed name parse handler args).2 = [Event.parsed name] :=
      runParsed_error_trace name parse handler args m (heq ▸ h)
    refine ⟨by rw [heq]; exact ht, ?_⟩
    have hd := dispatch_of_error env bk ps name args m h
    rw [hd, heq, ht]

/-! ## Claim theorems -/

/-- C1: when no write credential is configured, every write-class tool
handler (objects create/update/delete, media upload/delete, types
create/update/delete, AI image/video) returns the error envelope produced
by the `requireWriteAccess` throw and performs zero backend calls. -/
theorem c1_write_guard_blocks_write_tools (env : Env)
    (h : hasWriteAccess env = false) (bk : Backend) :
    (∀ p, handleCreateObject env bk p =
      (errEnv (("Error creating object: ") ++ writeKeyMsg), [])) ∧
    (∀ p, handleUpdateObject env bk p =
      (errEnv (("Error updating object: ") ++ writeKeyMsg), [])) ∧
    (∀ p, handleDeleteObject env bk p =
      (errEnv (("Error deleting object: ") ++ writeKeyMsg), [])) ∧
    (∀ p, handleUploadMedia env bk p =
      (errEnv (("Error uploading media: ") ++ writeKeyMsg), [])) ∧
    (∀ p, handleDeleteMedia env bk p =
      (errEnv (("Error deleting media: ") ++ writeKeyMsg), [])) ∧
    (∀ p, handleCreateObjectType env bk p =
      (errEnv (("Error creating object type: ") ++ writeKeyMsg), [])) ∧
    (∀ p, handleUpdateObjectType env bk p =
      (errEnv (("Error updating object type: ") ++ writeKeyMsg), [])) ∧
    (∀ p, handleDeleteObjectType env bk p =
      (errEnv (("Error deleting object type: ") ++ writeKeyMsg), [])) ∧
    (∀ p, handleGenerateImage env bk p =
      (errEnv (("Error generating image: ") ++ writeKeyMsg), [])) ∧
    (∀ p, handleGenerateVideo env bk p =
      (errEnv (("Error generating video: ") ++ writeKeyMsg), [])) := by
  refine ⟨fun p => ?_, fun p => ?_, fun p => ?_, fun p => ?_, fun p => ?_,
          fun p => ?_, fun p => ?_, fun p => ?_, fun p => ?_, fun p => ?_⟩ <;>
    simp [handleCreateObject, handleUpdateObject, handleDeleteObject,
          handleUploadMedia, handleDeleteMedia, handleCreateObjectType,
          handleUpdateObjectType, handleDeleteObjectType, handleGenerateImage,
          handleGenerateVideo, requireWriteAccess, h, writeKeyMsg]

/-- C1 witness: in a read-only environment, four representative write
tools are blocked with zero backend calls. -/
theorem c1_write_guard_blocks_write_tools_witness :
    hasWriteAccess envReadOnly = false ∧
    handleCreateObject envReadOnly bkOk
        ⟨"T", "t", none, none, PubStatus.draft, none, none⟩ =
      (errEnv (("Error creating object: ") ++ writeKeyMsg), []) ∧
    handleUploadMedia envReadOnly bkOk ⟨"u", none, none, true⟩ =
      (errEnv (("Error uploading media: ") ++ writeKeyMsg), []) ∧
    handleDeleteObjectType envReadOnly bkOk ⟨"posts"⟩ =
      (errEnv (("Error deleting object type: ") ++ writeKeyMsg), []) ∧
    handleGenerateVideo envReadOnly bkOk ⟨"pr", none, none, none, none, none⟩ =
      (errEnv (("Error generating video: ") ++ writeKeyMsg), []) := by
  have h := c1_write_guard_blocks_write_tools envReadOnly rfl bkOk
  exact ⟨rfl, h.1 _, h.2.2.2.1 _, h.2.2.2.2.2.2.2.1 _,
         h.2.2.2.2.2.2.2.2.2 _⟩

/-- C2 counterexample: called with id, slug and type all supplied, the
get-object handler does not return an error envelope; it performs the
backend query by id, so the claim's "both id and slug supplied returns an
error envelope without any backend call" is false at this input. -/
theorem c2_both_id_and_slug_counterexample :
    (handleGetObject envAll bkOk
        ⟨some ("a"), some ("b"), some ("t"), none, Status.any⟩).1.isError = none ∧
    (handleGetObject envAll bkOk
        ⟨some ("a"), some ("b"), some ("t"), none, Status.any⟩).2 =
      [BackendCall.objectsFindOne
        ⟨[(("id"), JsValue.str ("a"))], none, some Status.any⟩] :=
  ⟨rfl, rfl⟩

/-- C2 (amended): the get-object handler requires at least one of id or
slug, and whenever slug is truthy, type must also be truthy; violating
either precondition returns an error envelope with zero backend calls
(supplying both id and slug together with type is not an error). -/
theorem c2_get_object_preconditions (env : Env) (bk : Backend)
    (p : GetObjectParams) :
    (truthyStr p.id = false → truthyStr p.slug = false →
      handleGetObject env bk p =
        (errEnv ("Error: Either id or slug must be provided"), [])) ∧
    (truthyStr p.slug = true → truthyStr p.type = false →
      handleGetObject env bk p =
        (errEnv ("Error: type is required when using slug to get an object"),
         [])) := by
  constructor
  · intro h1 h2; simp [handleGetObject, h1, h2]
  · intro h1 h2; simp [handleGetObject, h1, h2]

/-- C2 witness: the two precondition violations at concrete inputs. -/
theorem c2_get_object_preconditions_witness :
    handleGetObject envAll bkOk ⟨none, none, none, none, Status.any⟩ =
      (errEnv ("Error: Either id or slug must be provided"), []) ∧
    handleGetObject envAll bkOk ⟨none, some ("b"), none, none, Status.any⟩ =
      (errEnv ("Error: type is required when using slug to get an object"),
       []) :=
  ⟨(c2_get_object_preconditions envAll bkOk _).1 rfl rfl,
   (c2_get_object_preconditions envAll bkOk _).2 rfl rfl⟩

/-- C3: for every media argument, a string with the `data:` prefix is
matched against the fixed data-URI pattern; on a match the decoded bytes
(not the original string) are forwarded to the backend, on a failed match
an invalid-format error envelope is returned with zero backend calls, and
a string without the prefix is forwarded unchanged. -/
theorem c3_upload_media_input_handling (env : Env) (bk : Backend)
    (p : UploadMediaParams) (hw : hasWriteAccess env = true)
    (hb : truthyStr env.bucketSlug = true) (hr : truthyStr env.readKey = true) :
    (∀ mime data, dataUriMatch p.media = some (mime, data) →
      (handleUploadMedia env bk p).2 =
        [BackendCall.mediaInsertOne
          (uploadMediaRecord (JsValue.buffer (decodeBase64 data)) p)]) ∧
    (jsStartsWith p.media ("data:") = true → dataUriMatch p.media = none →
      handleUploadMedia env bk p =
        (errEnv ("Error: Invalid base64 data URI format. Expected format: data:<mimetype>;base64,<data>"),
         [])) ∧
    (jsStartsWith p.media ("data:") = false →
      (handleUploadMedia env bk p).2 =
        [BackendCall.mediaInsertOne (uploadMediaRecord (JsValue.str p.media) p)]) := by
  refine ⟨?_, ?_, ?_⟩
  · intro mime data hm
    have hs : jsStartsWith p.media ("data:") = true := by
      by_contra hc
      simp [Bool.not_eq_true] at hc
      simp [dataUriMatch, hc] at hm
    simp [handleUploadMedia, requireWriteAccess, hw, getCosmicClient,
          getConfig, hb, hr, Except.map, hs, hm]
    cases bk (BackendCall.mediaInsertOne
        (uploadMediaRecord (JsValue.buffer (decodeBase64 data)) p)) <;> simp
  · intro hs hm
    simp [handleUploadMedia, requireWriteAccess, hw, getCosmicClient,
          getConfig, hb, hr, Except.map, hs, hm]
  · intro hs
    simp [handleUploadMedia, requireWriteAccess, hw, getCosmicClient,
          getConfig, hb, hr, Except.map, hs]
    cases bk (BackendCall.mediaInsertOne
        (uploadMediaRecord (JsValue.str p.media) p)) <;> simp

/-- C3 witness: the spec's concrete example decodes `Zm9v` to the bytes
of `foo`; a malformed data URI is rejected with zero backend calls; a
non-data string goes through unchanged as a URL. -/
theorem c3_upload_media_input_handling_witness :
    (handleUploadMedia envAll bkOk
        ⟨"data:image/png;base64,Zm9v", none, none, true⟩).2 =
      [BackendCall.mediaInsertOne
        [(("media"), JsValue.buffer [102, 111, 111]),
         (("folder"), JsValue.undef),
         (("metadata"), JsValue.undef),
         (("trigger_webhook"), JsValue.bool true)]] ∧
    handleUploadMedia envAll bkOk ⟨"data:bad-format", none, none, true⟩ =
      (errEnv ("Error: Invalid base64 data URI format. Expected format: data:<mimetype>;base64,<data>"),
       []) ∧
    (handleUploadMedia envAll bkOk
        ⟨"https://example.com/a.png", none, none, true⟩).2 =
      [BackendCall.mediaInsertOne
        [(("media"), JsValue.str ("https://example.com/a.png")),
         (("folder"), JsValue.undef),
         (("metadata"), JsValue.undef),
         (("trigger_webhook"), JsValue.bool true)]] := by
  refine ⟨?_, ?_, ?_⟩
  · exact (c3_upload_media_input_handling envAll bkOk _ rfl rfl rfl).1
      ("image/png") ("Zm9v") (by decide)
  · exact (c3_upload_media_input_handling envAll bkOk _ rfl rfl rfl).2.1
      (by decide) (by decide)
  · exact (c3_upload_media_input_handling envAll bkOk _ rfl rfl rfl).2.2
      (by decide)

/-- C4: every error thrown while parsing or handling a tool call is
converted by the dispatcher's outer catch into an envelope whose single
text block is the uniform executing-tool message; no thrown error
escapes. -/
theorem c4_dispatcher_outer_catch (env : Env) (bk : Backend) (ps : Parsers)
    (name : String) (args : JsValue) (m : String)
    (h : (dispatchBody env bk ps name args).1 = Except.error m) :
    dispatch env bk ps name args =
      (errEnv (("Error executing tool ") ++ name ++ (": ") ++ m),
       (dispatchBody env bk ps name args).2) ∧
    (dispatch env bk ps name args).1.content =
      [⟨("Error executing tool ") ++ name ++ (": ") ++ m⟩] ∧
    (dispatch env bk ps name args).1.isError = some true := by
  have hd := dispatch_of_error env bk ps name args m h
  exact ⟨hd, by rw [hd]; rfl, by rw [hd]; rfl⟩

/-- C4 witness: a failing zod parse on a known tool is converted to the
uniform envelope. -/
theorem c4_dispatcher_outer_catch_witness :
    dispatch envAll bkOk failParsers ("cosmic_objects_list") JsValue.undef =
      (errEnv (("Error executing tool ") ++ ("cosmic_objects_list") ++
        (": ") ++ ("parse failure")),
       [Event.parsed ("cosmic_objects_list")]) ∧
    (dispatch envAll bkOk failParsers ("cosmic_objects_list")
        JsValue.undef).1.isError = some true := by
  have h := c4_dispatcher_outer_catch envAll bkOk failParsers
    ("cosmic_objects_list") JsValue.undef ("parse failure") rfl
  exact ⟨h.1, h.2.2⟩

/-- C5: dispatching a name outside the 17 registered tools returns the
unknown-tool error envelope with an empty trace: no schema parse, no
handler invocation, no backend call. -/
theorem c5_unknown_tool_rejected (env : Env) (bk : Backend) (ps : Parsers)
    (args : JsValue) (name : String) (h : name ∉ allTools) :
    dispatch env bk ps name args =
      (errEnv (("Unknown tool: ") ++ name), []) ∧
    (dispatch env bk ps name args).1.isError = some true := by
  have hb := dispatchBody_not_known env bk ps name args h
  constructor
  · simp [dispatch, hb]
  · simp [dispatch, hb, errEnv]

/-- C5 witness: a concrete unregistered name. -/
theorem c5_unknown_tool_rejected_witness :
    dispatch envAll bkOk failParsers ("cosmic_objects_patch") JsValue.undef =
      (errEnv (("Unknown tool: ") ++ ("cosmic_objects_patch")), []) :=
  (c5_unknown_tool_rejected envAll bkOk failParsers JsValue.undef
    ("cosmic_objects_patch") (by decide)).1

/-- C6: the update handlers for objects and types forward a patch
containing exactly the optional fields that were supplied: the patch is
the concatenation of one `optEntry` per field, each empty when the field
was omitted (so an omitted field is absent, not null or undefined), and
that patch is exactly what goes to the backend update call. -/
theorem c6_update_patch_sparse (env : Env) (bk : Backend)
    (hw : hasWriteAccess env = true) (hb : truthyStr env.bucketSlug = true)
    (hr : truthyStr env.readKey = true) :
    (∀ p : UpdateObjectParams, (handleUpdateObject env bk p).2 =
      [BackendCall.objectsUpdateOne p.id (objectUpdatesRecord p)]) ∧
    (∀ p : UpdateObjectParams, objectUpdatesRecord p =
      optEntry ("title") (p.title.map JsValue.str) ++
      optEntry ("slug") (p.slug.map JsValue.str) ++
      optEntry ("content") (p.content.map JsValue.str) ++
      optEntry ("status") (p.status.map (fun st => JsValue.str st.toJsStr)) ++
      optEntry ("metadata") (p.metadata.map JsValue.obj)) ∧
    (∀ p : UpdateObjectParams, p.title = none →
      ∀ v, (("title"), v) ∉ objectUpdatesRecord p) ∧
    (∀ p : UpdateObjectTypeParams, (handleUpdateObjectType env bk p).2 =
      [BackendCall.objectTypesUpdateOne p.slug (objectTypeUpdatesRecord p)]) ∧
    (∀ p : UpdateObjectTypeParams, objectTypeUpdatesRecord p =
      optEntry ("title") (p.title.map JsValue.str) ++
      optEntry ("singular") (p.singular.map JsValue.str) ++
      optEntry ("metafields") (p.metafields.map JsValue.arr) ++
      optEntry ("options") (p.options.map TypeOptions.toJs)) := by
  refine ⟨?_, ?_, ?_, ?_, ?_⟩
  · intro p
    simp [handleUpdateObject, requireWriteAccess, hw, getCosmicClient,
          getConfig, hb, hr, Except.map]
    cases bk (BackendCall.objectsUpdateOne p.id (objectUpdatesRecord p)) <;> simp
  · intro p
    rcases p with ⟨i, t, s, c, st, md⟩
    cases t <;> cases s <;> cases c <;> cases st <;> cases md <;> rfl
  · intro p h v
    rcases p with ⟨i, t, s, c, st, md⟩
    simp only at h
    subst h
    cases s <;> cases c <;> cases st <;> cases md <;>
      simp [objectUpdatesRecord]
  · intro p
    simp [handleUpdateObjectType, requireWriteAccess, hw, getCosmicClient,
          getConfig, hb, hr, Except.map]
    cases bk (BackendCall.objectTypesUpdateOne p.slug
        (objectTypeUpdatesRecord p)) <;> simp
  · intro p
    rcases p with ⟨sl, t, sg, mf, op⟩
    cases t <;> cases sg <;> cases mf <;> cases op <;> rfl

/-- C6 witness: the spec's concrete example - updating with only id and
title forwards a patch containing exactly the title entry. -/
theorem c6_update_patch_sparse_witness :
    (handleUpdateObject envAll bkOk ⟨"x", some ("New"), none, none, none, none⟩).2 =
      [BackendCall.objectsUpdateOne ("x") [(("title"), JsValue.str ("New"))]] :=
  (c6_update_patch_sparse envAll bkOk rfl rfl rfl).1 _

/-- C7 counterexample: creating an object while omitting slug forwards a
request object that does carry the `slug` key (with JS `undefined` as its
value), so the claim that the request "does not carry that field" fails
for the create handler. -/
theorem c7_create_carries_omitted_keys_counterexample :
    (handleCreateObject envAll bkOk
        ⟨"T", "t", none, none, PubStatus.draft, none, none⟩).2 =
      [BackendCall.objectsInsertOne
        [(("title"), JsValue.str ("T")), (("type"), JsValue.str ("t")),
         (("slug"), JsValue.undef), (("content"), JsValue.undef),
         (("status"), JsValue.str ("draft")), (("metadata"), JsValue.undef),
         (("locale"), JsValue.undef)]] ∧
    (("slug"), JsValue.undef) ∈
      createObjectRecord ⟨"T", "t", none, none, PubStatus.draft, none, none⟩ :=
  ⟨rfl, by simp [createObjectRecord, jsOptStr, jsOptObj]⟩

/-- C7 (amended): only the update handlers build sparse patches; the
create handlers (objects and types), the media upload handler and all
three AI handlers write every declared key unconditionally in their
request object literal, so an omitted optional field is present in the
forwarded request with JS `undefined` (never `null`) as its value.  One
conjunction group per handler: backend forwarding of the record, the
fixed key list, one present-with-`undefined` fact per omitted optional
field, and null-freeness. -/
theorem c7_optional_field_forwarding (env : Env) (bk : Backend)
    (hw : hasWriteAccess env = true) (hb : truthyStr env.bucketSlug = true)
    (hr : truthyStr env.readKey = true) :
    ((∀ p : CreateObjectParams, (handleCreateObject env bk p).2 =
        [BackendCall.objectsInsertOne (createObjectRecord p)]) ∧
     (∀ p : CreateObjectParams, (createObjectRecord p).map Prod.fst =
        [("title"), ("type"), ("slug"), ("content"), ("status"), ("metadata"),
         ("locale")]) ∧
     (∀ p : CreateObjectParams, p.slug = none →
        (("slug"), JsValue.undef) ∈ createObjectRecord p) ∧
     (∀ p : CreateObjectParams, ∀ s, p.slug = some s →
        (("slug"), JsValue.str s) ∈ createObjectRecord p) ∧
     (∀ p : CreateObjectParams, p.content = none →
        (("content"), JsValue.undef) ∈ createObjectRecord p) ∧
     (∀ p : CreateObjectParams, p.metadata = none →
        (("metadata"), JsValue.undef) ∈ createObjectRecord p) ∧
     (∀ p : CreateObjectParams, p.locale = none →
        (("locale"), JsValue.undef) ∈ createObjectRecord p) ∧
     (∀ p : CreateObjectParams,
        JsValue.null ∉ (createObjectRecord p).map Prod.snd)) ∧
    ((∀ (m : JsValue) (p : UploadMediaParams),
        (uploadMediaRecord m p).map Prod.fst =
          [("media"), ("folder"), ("metadata"), ("trigger_webhook")]) ∧
     (∀ (m : JsValue) (p : UploadMediaParams), p.folder = none →
        (("folder"), JsValue.undef) ∈ uploadMediaRecord m p) ∧
     (∀ (m : JsValue) (p : UploadMediaParams), p.metadata = none →
        (("metadata"), JsValue.undef) ∈ uploadMediaRecord m p) ∧
     (∀ (m : JsValue) (p : UploadMediaParams), m ≠ JsValue.null →
        JsValue.null ∉ (uploadMediaRecord m p).map Prod.snd)) ∧
    ((∀ p : CreateObjectTypeParams, (handleCreateObjectType env bk p).2 =
        [BackendCall.objectTypesInsertOne (createObjectTypeRecord p)]) ∧
     (∀ p : CreateObjectTypeParams, (createObjectTypeRecord p).map Prod.fst =
        [("title"), ("slug"), ("singular"), ("metafields"), ("options")]) ∧
     (∀ p : CreateObjectTypeParams, p.singular = none →
        (("singular"), JsValue.undef) ∈ createObjectTypeRecord p) ∧
     (∀ p : CreateObjectTypeParams, p.metafields = none →
        (("metafields"), JsValue.undef) ∈ createObjectTypeRecord p) ∧
     (∀ p : CreateObjectTypeParams, p.options = none →
        (("options"), JsValue.undef) ∈ createObjectTypeRecord p) ∧
     (∀ p : CreateObjectTypeParams,
        JsValue.null ∉ (createObjectTypeRecord p).map Prod.snd)) ∧
    ((∀ p : GenerateTextParams, (handleGenerateText env bk p).2 =
        [BackendCall.aiGenerateText (generateTextRecord p)]) ∧
     (∀ p : GenerateTextParams, (generateTextRecord p).map Prod.fst =
        [("prompt"), ("model"), ("max_tokens")]) ∧
     (∀ p : GenerateTextParams, p.model = none →
        (("model"), JsValue.undef) ∈ generateTextRecord p) ∧
     (∀ p : GenerateTextParams, p.max_tokens = none →
        (("max_tokens"), JsValue.undef) ∈ generateTextRecord p) ∧
     (∀ p : GenerateTextParams,
        JsValue.null ∉ (generateTextRecord p).map Prod.snd)) ∧
    ((∀ p : GenerateImageParams, (handleGenerateImage env bk p).2 =
        [BackendCall.aiGenerateImage (generateImageRecord p)]) ∧
     (∀ p : GenerateImageParams, (generateImageRecord p).map Prod.fst =
        [("prompt"), ("model"), ("folder"), ("metadata"), ("alt_text")]) ∧
     (∀ p : GenerateImageParams, p.model = none →
        (("model"), JsValue.undef) ∈ generateImageRecord p) ∧
     (∀ p : GenerateImageParams, p.folder = none →
        (("folder"), JsValue.undef) ∈ generateImageRecord p) ∧
     (∀ p : GenerateImageParams, p.metadata = none →
        (("metadata"), JsValue.undef) ∈ generateImageRecord p) ∧
     (∀ p : GenerateImageParams, p.alt_text = none →
        (("alt_text"), JsValue.undef) ∈ generateImageRecord p) ∧
     (∀ p : GenerateImageParams,
        JsValue.null ∉ (generateImageRecord p).map Prod.snd)) ∧
    ((∀ p : GenerateVideoParams, (handleGenerateVideo env bk p).2 =
        [BackendCall.aiGenerateVideo (generateVideoRecord p)]) ∧
     (∀ p : GenerateVideoParams, (generateVideoRecord p).map Prod.fst =
        [("prompt"), ("model"), ("duration"), ("resolution"), ("folder"),
         ("metadata")]) ∧
     (∀ p : GenerateVideoParams, p.model = none →
        (("model"), JsValue.undef) ∈ generateVideoRecord p) ∧
     (∀ p : GenerateVideoParams, p.duration = none →
        (("duration"), JsValue.undef) ∈ generateVideoRecord p) ∧
     (∀ p : GenerateVideoParams, p.resolution = none →
        (("resolution"), JsValue.undef) ∈ generateVideoRecord p) ∧
     (∀ p : GenerateVideoParams, p.folder = none →
        (("folder"), JsValue.undef) ∈ generateVideoRecord p) ∧
     (∀ p : GenerateVideoParams, p.metadata = none →
        (("metadata"), JsValue.undef) ∈ generateVideoRecord p) ∧
     (∀ p : GenerateVideoParams,
        JsValue.null ∉ (generateVideoRecord p).map Prod.snd)) := by
  refine ⟨⟨?_, ?_, ?_, ?_, ?_, ?_, ?_, ?_⟩, ⟨?_, ?_, ?_, ?_⟩,
          ⟨?_, ?_, ?_, ?_, ?_, ?_⟩, ⟨?_, ?_, ?_, ?_, ?_⟩,
          ⟨?_, ?_, ?_, ?_, ?_, ?_, ?_⟩, ⟨?_, ?_, ?_, ?_, ?_, ?_, ?_, ?_⟩⟩
  · intro p
    simp [handleCreateObject, requireWriteAccess, hw, getCosmicClient,
          getConfig, hb, hr, Except.map]
    cases bk (BackendCall.objectsInsertOne (createObjectRecord p)) <;> simp
  · intro p; rfl
  · intro p h; simp [createObjectRecord, h, jsOptStr]
  · intro p s h; simp [createObjectRecord, h, jsOptStr]
  · intro p h; simp [createObjectRecord, h, jsOptStr]
  · intro p h; simp [createObjectRecord, h, jsOptObj]
  · intro p h; simp [createObjectRecord, h, jsOptStr]
  · intro p
    rcases p with ⟨t, ty, sl, co, st, md, lo⟩
    cases sl <;> cases co <;> cases md <;> cases lo <;>
      simp [createObjectRecord, jsOptStr, jsOptObj]
  · intro m p; rfl
  · intro m p h; simp [uploadMediaRecord, h, jsOptStr]
  · intro m p h; simp [uploadMediaRecord, h, jsOptObj]
  · intro m p hm
    rcases p with ⟨me, fo, md, tw⟩
    cases fo <;> cases md <;>
      simp [uploadMediaRecord, jsOptStr, jsOptObj] <;>
      exact fun h => hm h.symm
  · intro p
    simp [handleCreateObjectType, requireWriteAccess, hw, getCosmicClient,
          getConfig, hb, hr, Except.map]
    cases bk (BackendCall.objectTypesInsertOne (createObjectTypeRecord p)) <;>
      simp
  · intro p; rfl
  · intro p h; simp [createObjectTypeRecord, h, jsOptStr]
  · intro p h; simp [createObjectTypeRecord, h]
  · intro p h; simp [createObjectTypeRecord, h]
  · intro p
    rcases p with ⟨t, sl, sg, mf, op⟩
    cases sg <;> cases mf <;> cases op <;>
      simp [createObjectTypeRecord, jsOptStr, TypeOptions.toJs]
  · intro p
    simp [handleGenerateText, getCosmicClient, getConfig, hb, hr, Except.map]
    cases bk (BackendCall.aiGenerateText (generateTextRecord p)) <;> simp
  · intro p; rfl
  · intro p h; simp [generateTextRecord, h, jsOptStr]
  · intro p h; simp [generateTextRecord, h, jsOptNum]
  · intro p
    rcases p with ⟨pr, mo, mt⟩
    cases mo <;> cases mt <;>
      simp [generateTextRecord, jsOptStr, jsOptNum]
  · intro p
    simp [handleGenerateImage, requireWriteAccess, hw, getCosmicClient,
          getConfig, hb, hr, Except.map]
    cases bk (BackendCall.aiGenerateImage (generateImageRecord p)) <;> simp
  · intro p; rfl
  · intro p h; simp [generateImageRecord, h, jsOptStr]
  · intro p h; simp [generateImageRecord, h, jsOptStr]
  · intro p h; simp [generateImageRecord, h, jsOptObj]
  · intro p h; simp [generateImageRecord, h, jsOptStr]
  · intro p
    rcases p with ⟨pr, mo, fo, md, al⟩
    cases mo <;> cases fo <;> cases md <;> cases al <;>
      simp [generateImageRecord, jsOptStr, jsOptObj]
  · intro p
    simp [handleGenerateVideo, requireWriteAccess, hw, getCosmicClient,
          getConfig, hb, hr, Except.map]
    cases bk (BackendCall.aiGenerateVideo (generateVideoRecord p)) <;> simp
  · intro p; rfl
  · intro p h; simp [generateVideoRecord, h, jsOptStr]
  · intro p h; simp [generateVideoRecord, h, jsOptNum]
  · intro p h; simp [generateVideoRecord, h]
  · intro p h; simp [generateVideoRecord, h, jsOptStr]
  · intro p h; simp [generateVideoRecord, h, jsOptObj]
  · intro p
    rcases p with ⟨pr, mo, du, re, fo, md⟩
    cases mo <;> cases du <;> cases re <;> cases fo <;> cases md <;>
      simp [generateVideoRecord, jsOptStr, jsOptNum, jsOptObj]

/-- C7 witness: concrete inputs with omitted optional fields for the
object create, media upload, type create and all three AI handlers. -/
theorem c7_optional_field_forwarding_witness :
    (handleCreateObject envAll bkOk
        ⟨"T", "t", none, some ("body"), PubStatus.published, none, none⟩).2 =
      [BackendCall.objectsInsertOne (createObjectRecord
        ⟨"T", "t", none, some ("body"), PubStatus.published, none, none⟩)] ∧
    (createObjectRecord
        ⟨"T", "t", none, some ("body"), PubStatus.published, none, none⟩).map
      Prod.fst =
      [("title"), ("type"), ("slug"), ("content"), ("status"), ("metadata"),
       ("locale")] ∧
    (("folder"), JsValue.undef) ∈
      uploadMediaRecord (JsValue.str ("u")) ⟨"u", none, none, true⟩ ∧
    (handleCreateObjectType envAll bkOk ⟨"Posts", "posts", none, none, none⟩).2 =
      [BackendCall.objectTypesInsertOne
        (createObjectTypeRecord ⟨"Posts", "posts", none, none, none⟩)] ∧
    (("singular"), JsValue.undef) ∈
      createObjectTypeRecord ⟨"Posts", "posts", none, none, none⟩ ∧
    (("max_tokens"), JsValue.undef) ∈ generateTextRecord ⟨"pr", none, none⟩ ∧
    (("alt_text"), JsValue.undef) ∈
      generateImageRecord ⟨"pr", none, none, none, none⟩ ∧
    (handleGenerateVideo envAll bkOk ⟨"pr", none, none, none, none, none⟩).2 =
      [BackendCall.aiGenerateVideo
        (generateVideoRecord ⟨"pr", none, none, none, none, none⟩)] ∧
    (("duration"), JsValue.undef) ∈
      generateVideoRecord ⟨"pr", none, none, none, none, none⟩ ∧
    (("resolution"), JsValue.undef) ∈
      generateVideoRecord ⟨"pr", none, none, none, none, none⟩ := by
  have h := c7_optional_field_forwarding envAll bkOk rfl rfl rfl
  obtain ⟨h1, h2, h3, h4, h5, h6⟩ := h
  exact ⟨h1.1 _, h1.2.1 _, h2.2.1 (JsValue.str ("u")) _ rfl, h3.1 _,
         h3.2.2.1 _ rfl, h4.2.2.2.1 _ rfl, h5.2.2.2.2.2.1 _ rfl, h6.1 _,
         h6.2.2.2.1 _ rfl, h6.2.2.2.2.1 _ rfl⟩

/-- C8 counterexample: with every schema parse failing, dispatching
`cosmic_types_list` still invokes its handler and succeeds - the trace
holds a handler event and a backend call but no parse event - so the
claim that all 17 tools, including this one, are parsed through a schema
before their handler runs is false. -/
theorem c8_types_list_skips_validation_counterexample :
    dispatch envAll bkOk failParsers ("cosmic_types_list") JsValue.undef =
      (okEnv ("resp"),
       [Event.handled ("cosmic_types_list"),
        Event.backendCall BackendCall.objectTypesFind]) :=
  rfl

/-- C8 (amended): for the 16 parse-gated tools the dispatcher records the
schema parse before any handler work, and a parse failure yields exactly
the parse event (no handler, no backend call) plus the outer-catch
envelope; `cosmic_types_list` instead invokes its parameterless handler
with no schema parse at all. -/
theorem c8_parse_gating :
    (∀ name, name ∈ parseGatedTools → ∀ (env : Env) (bk : Backend)
        (ps : Parsers) (args : JsValue),
      ((dispatchBody env bk ps name args).2.head? = some (Event.parsed name)) ∧
      (∀ m, (dispatchBody env bk ps name args).1 = Except.error m →
        (dispatchBody env bk ps name args).2 = [Event.parsed name] ∧
        dispatch env bk ps name args =
          (errEnv (("Error executing tool ") ++ name ++ (": ") ++ m),
           [Event.parsed name]))) ∧
    (∀ (env : Env) (bk : Backend) (ps : Parsers) (args : JsValue),
      (dispatchBody env bk ps ("cosmic_types_list") args).2 =
        Event.handled ("cosmic_types_list") ::
          (handleListObjectTypes env bk).2.map Event.backendCall ∧
      Event.parsed ("cosmic_types_list") ∉
        (dispatchBody env bk ps ("cosmic_types_list") args).2) := by
  constructor
  · intro name hmem
    simp [parseGatedTools] at hmem
    rcases hmem with rfl|rfl|rfl|rfl|rfl|rfl|rfl|rfl|rfl|rfl|rfl|rfl|rfl|rfl|rfl|rfl
    · exact fun env bk ps args => gated_dispatch env bk ps _ args
        ps.listObjects (handleListObjects env bk) (by simp [dispatchBody])
    · exact fun env bk ps args => gated_dispatch env bk ps _ args
        ps.getObject (handleGetObject env bk) (by simp [dispatchBody])
    · exact fun env bk ps args => gated_dispatch env bk ps _ args
        ps.createObject (handleCreateObject env bk) (by simp [dispatchBody])
    · exact fun env bk ps args => gated_dispatch env bk ps _ args
        ps.updateObject (handleUpdateObject env bk) (by simp [dispatchBody])
    · exact fun env bk ps args => gated_dispatch env bk ps _ args
        ps.deleteObject (handleDeleteObject env bk) (by simp [dispatchBody])
    · exact fun env bk ps args => gated_dispatch env bk ps _ args
        ps.listMedia (handleListMedia env bk) (by simp [dispatchBody])
    · exact fun env bk ps args => gated_dispatch env bk ps _ args
        ps.getMedia (handleGetMedia env bk) (by simp [dispatchBody])
    · exact fun env bk ps args => gated_dispatch env bk ps _ args
        ps.uploadMedia (handleUploadMedia env bk) (by simp [dispatchBody])
    · exact fun env bk ps args => gated_dispatch env bk ps _ args
        ps.deleteMedia (handleDeleteMedia env bk) (by simp [dispatchBody])
    · exact fun env bk ps args => gated_dispatch env bk ps _ args
        ps.getObjectType (handleGetObjectType env bk) (by simp [dispatchBody])
    · exact fun env bk ps args => gated_dispatch env bk ps _ args
        ps.createObjectType (handleCreateObjectType env bk)
        (by simp [dispatchBody])
    · exact fun env bk ps args => gated_dispatch env bk ps _ args
        ps.updateObjectType (handleUpdateObjectType env bk)
        (by simp [dispatchBody])
    · exact fun env bk ps args => gated_dispatch env bk ps _ args
        ps.deleteObjectType (handleDeleteObjectType env bk)
        (by simp [dispatchBody])
    · exact fun env bk ps args => gated_dispatch env bk ps _ args
        ps.generateText (handleGenerateText env bk) (by simp [dispatchBody])
    · exact fun env bk ps args => gated_dispatch env bk ps _ args
        ps.generateImage (handleGenerateImage env bk) (by simp [dispatchBody])
    · exact fun env bk ps args => gated_dispatch env bk ps _ args
        ps.generateVideo (handleGenerateVideo env bk) (by simp [dispatchBody])
  · intro env bk ps args
    constructor
    · simp [dispatchBody]
    · simp [dispatchBody, List.mem_map]

/-- C8 witness: a parse-gated tool whose parse fails produces exactly the
parse event and the outer-catch envelope. -/
theorem c8_parse_gating_witness :
    (dispatchBody envAll bkOk failParsers ("cosmic_objects_get")
        JsValue.undef).2.head? = some (Event.parsed ("cosmic_objects_get")) ∧
    dispatch envAll bkOk failParsers ("cosmic_objects_get") JsValue.undef =
      (errEnv (("Error executing tool ") ++ ("cosmic_objects_get") ++
        (": ") ++ ("parse failure")),
       [Event.parsed ("cosmic_objects_get")]) := by
  have h := c8_parse_gating.1 ("cosmic_objects_get") (by decide)
    envAll bkOk failParsers JsValue.undef
  exact ⟨h.1, (h.2 ("parse failure") rfl).2⟩

/-- C9: the master list is the concatenation of the four catalogs in
order objects, media, types, AI with 5/4/5/3 members (17 in total), the
names are pairwise distinct, and a name reaches a dispatcher branch
(observable trace) exactly when it is in the master list - no orphan
descriptors and no orphan handler branches. -/
theorem c9_registry_catalog :
    objectTools.length = 5 ∧ mediaTools.length = 4 ∧
    objectTypeTools.length = 5 ∧ aiTools.length = 3 ∧
    allTools.length = 17 ∧
    allTools = objectTools ++ mediaTools ++ objectTypeTools ++ aiTools ∧
    allTools.Nodup ∧
    (∀ (env : Env) (bk : Backend) (ps : Parsers) (name : String)
        (args : JsValue),
      name ∈ allTools ↔ (dispatch env bk ps name args).2 ≠ []) := by
  refine ⟨rfl, rfl, rfl, rfl, rfl, rfl, by decide, ?_⟩
  intro env bk ps name args
  rw [dispatch_trace]
  constructor
  · intro hmem
    simp [allTools, objectTools, mediaTools, objectTypeTools, aiTools] at hmem
    rcases hmem with rfl|rfl|rfl|rfl|rfl|rfl|rfl|rfl|rfl|rfl|rfl|rfl|rfl|rfl|rfl|rfl|rfl <;>
      simp [dispatchBody] <;>
      exact runParsed_trace_ne _ _ _ _
  · intro hne
    by_contra hmem
    exact hne (by rw [dispatchBody_not_known env bk ps name args hmem])

/-- C9 witness: a registered name produces a non-empty trace. -/
theorem c9_registry_catalog_witness :
    (dispatch envAll bkOk failParsers ("cosmic_objects_list")
        JsValue.undef).2 ≠ [] :=
  (c9_registry_catalog.2.2.2.2.2.2.2 envAll bkOk failParsers
    ("cosmic_objects_list") JsValue.undef).mp (by decide)

/-- C10 counterexample: called with both id and slug but no type, the
get-object handler does error (the slug-without-type check fires even
though id is present), so the claim's "with or without type" is false. -/
theorem c10_both_without_type_counterexample :
    handleGetObject envAll bkOk ⟨some ("a"), some ("b"), none, none, Status.any⟩ =
      (errEnv ("Error: type is required when using slug to get an object"),
       []) :=
  rfl

/-- C10 (amended): when id is truthy and type is truthy, the handler
behaves exactly as if slug and type had been omitted - it queries the
backend by id only, and any backend call it makes is the find-one-by-id
request, unaffected by the supplied slug. -/
theorem c10_get_object_id_precedence (env : Env) (bk : Backend)
    (p : GetObjectParams) (h1 : truthyStr p.id = true)
    (h2 : truthyStr p.type = true) :
    handleGetObject env bk p =
      handleGetObject env bk ⟨p.id, none, none, p.props, p.status⟩ ∧
    (∀ i, p.id = some i →
      ∀ c ∈ (handleGetObject env bk p).2,
        c = BackendCall.objectsFindOne
          ⟨[(("id"), JsValue.str i)], p.props, some p.status⟩) := by
  constructor
  · simp [handleGetObject, h1, h2, truthyStr_none]
  · intro i hi c hc
    rw [hi] at h1
    simp [handleGetObject, h1, h2, hi] at hc
    cases hq : getCosmicClient env with
    | error m => simp [hq] at hc
    | ok u =>
      cases hbk : bk (BackendCall.objectsFindOne
          ⟨[(("id"), JsValue.str i)], p.props, some p.status⟩) with
      | error m2 => simp [hq, hbk] at hc; exact hc
      | ok r => simp [hq, hbk] at hc; exact hc

/-- C10 witness: with id, slug and type supplied, the result equals the
result of the same call without slug and type. -/
theorem c10_get_object_id_precedence_witness :
    handleGetObject envAll bkOk
        ⟨some ("a"), some ("b"), some ("t"), some [("title")], Status.draft⟩ =
      handleGetObject envAll bkOk
        ⟨some ("a"), none, none, some [("title")], Status.draft⟩ :=
  (c10_get_object_id_precedence envAll bkOk
    ⟨some ("a"), some ("b"), some ("t"), some [("title")], Status.draft⟩
    rfl rfl).1

end CosmicMcp
